import Mathlib

/-!
Verification of the authentication and user-management controllers of the
`ingenieria-web` repository (a TypeScript REST server).

The embedding is shallow: each Express controller becomes a pure Lean
function from an explicit store state (and request data) to an
`Except AppError` result.  JavaScript `Number` semantics relevant to the
controllers (NaN from `Number(param)`, truthiness of `0`, strict equality)
are modelled by the `JsNum` type.  Parts of the repository that the
controllers call but whose source is not in scope (the token codec in
`src/utils/authToken`, the request schemas, the Prisma client) are modelled
from the specification and marked as such in their doc comments.
-/

namespace IngWeb

/-- JavaScript number as used for entity identifiers: either a genuine
integer or `NaN` (the result of `Number` applied to a non-numeric string).
Non-integral numbers never arise as identifiers in the controllers. -/
inductive JsNum where
  | nan : JsNum
  | int (n : Int) : JsNum
deriving Repr, DecidableEq

/-- JavaScript strict equality (`===`) on numbers: `NaN` compares unequal
to everything, including itself. -/
def jsEq : JsNum → JsNum → Bool
  | JsNum.int a, JsNum.int b => a == b
  | _, _ => false

/-- JavaScript truthiness of a number: `0` and `NaN` are falsy. -/
def jsTruthy : JsNum → Bool
  | JsNum.nan => false
  | JsNum.int n => n != 0

/-- ASCII whitespace, as trimmed by JavaScript's number conversion. -/
def isWs (c : Char) : Bool :=
  c == ' ' || c == '\t' || c == '\n' || c == '\r'

/-- Strip leading and trailing whitespace from a character list. -/
def trimChars (cs : List Char) : List Char :=
  ((cs.dropWhile isWs).reverse.dropWhile isWs).reverse

/-- Parse a non-empty all-digit character list as a natural number. -/
def parseDigits (cs : List Char) : Option Nat :=
  if cs ≠ [] ∧ cs.all (fun c => c.isDigit) then
    some (cs.foldl (fun a c => 10 * a + (c.toNat - 48)) 0)
  else none

/-- JavaScript `Number(s)` conversion as applied to a route parameter.
Modelled for the decimal-integer forms that can denote an identifier:
the empty/whitespace string converts to `0`, an optionally signed decimal
integer converts to its value, and every other string is mapped to `NaN`
(the model conservatively sends non-decimal numeric literals, which never
denote an identifier, to `NaN` as well). -/
def jsNumber (s : String) : JsNum :=
  match trimChars s.data with
  | [] => JsNum.int 0
  | '-' :: rest =>
    match parseDigits rest with
    | some n => JsNum.int (-(n : Int))
    | none => JsNum.nan
  | cs =>
    match parseDigits cs with
    | some n => JsNum.int (n : Int)
    | none => JsNum.nan

/-- Error kinds raised by the controllers, mirroring `@/common/errors`.
The structured `data` payloads (`{id}`, `{email}`) are elided; the
human-readable messages are kept verbatim. -/
inductive AppError where
  | invalidToken (msg : String)
  | unauthorized (msg : String)
  | validationError (msg : String)
  | entityNotFound (entity : String)
  | internalError
deriving Repr, DecidableEq

/-- A role record (`Role` table). -/
structure Role where
  id : Int
  name : String
deriving Repr, DecidableEq

/-- A user record as stored (`User` table): includes the password
credential and a reference to its role. -/
structure User where
  id : Int
  email : String
  firstName : String
  lastName : String
  password : String
  roleId : Int
deriving Repr, DecidableEq

/-- A user record joined with its role (`UserWithRole`, i.e. the result of
a Prisma query with `include: { role: true }`). -/
structure UserWithRole extends User where
  role : Role
deriving Repr, DecidableEq

/-- A ticket record, as far as `deleteUser` consults it: its assignee and
supervisor references. -/
structure Ticket where
  id : Int
  assigneeId : Option Int
  supervisorId : Option Int
deriving Repr, DecidableEq

/-- The relational store visible to the controllers. -/
structure Store where
  users : List User
  roles : List Role
  tickets : List Ticket
deriving Repr, DecidableEq

/-- Lookup `db.user.findUnique({ where: { email } })`. -/
def findUniqueByEmail (s : Store) (email : String) : Option User :=
  s.users.find? (fun u => u.email == email)

/-- Lookup `db.user.findUnique({ where: { id } })`; the identifier may be `NaN`,
which matches no record. -/
def findUniqueById (s : Store) (id : JsNum) : Option User :=
  s.users.find? (fun u => jsEq id (JsNum.int u.id))

/-- Join a user with its role (`include: { role: true }`); `none` when the
referenced role is absent from the store. -/
def withRole (s : Store) (u : User) : Option UserWithRole :=
  (s.roles.find? (fun r => r.id == u.roleId)).map (fun r => { toUser := u, role := r })

/-- Well-formedness of a store as guaranteed by the database schema and the
request validation layer: identifiers are positive (autoincrement starts at
1), emails are non-empty (the schema validates email format), and both
columns are unique. -/
def Store.WF (s : Store) : Prop :=
  (∀ u ∈ s.users, 0 < u.id ∧ u.email ≠ "") ∧
  (s.users.map User.id).Nodup ∧
  (s.users.map User.email).Nodup

instance (s : Store) : Decidable s.WF := by
  unfold Store.WF; infer_instance

/-! ## Token codec (`@/utils/authToken`)

Modelled from the spec: the codec source is not in scope.  A token is a
signed, time-bound claims payload with a purpose marker; `read` yields the
claims exactly when the signature verifies and the token is unexpired, and
the refresh-verification additionally requires the refresh purpose. -/

/-- Claims payload carried by a token: an optional email claim (login
tokens) and an optional user-identifier claim (access/refresh tokens). -/
structure Claims where
  email : Option String
  userId : Option Int
deriving Repr, DecidableEq

/-- Purpose marker distinguishing the three token variants. -/
inductive TokenPurpose where
  | login
  | access
  | refresh
deriving Repr, DecidableEq

/-- Modelled from the spec: a token as seen by the verifier — its claims,
its purpose, and whether its signature verifies and its expiry has passed
at the moment of use. -/
structure Token where
  claims : Claims
  purpose : TokenPurpose
  sigValid : Bool
  expired : Bool
deriving Repr, DecidableEq

/-- Modelled from the spec: `readToken` returns the claims payload of a
well-signed, unexpired token and `none` (surfaced by the caller as
`InvalidToken`) otherwise. -/
def readToken (t : Token) : Option Claims :=
  if t.sigValid && !t.expired then some t.claims else none

/-- Modelled from the spec: `verifyRefreshToken` additionally requires the
token to have been issued with the refresh purpose; on failure it throws,
surfaced as `InvalidToken`. -/
def verifyRefreshToken (t : Token) : Option Claims :=
  if t.sigValid && !t.expired && t.purpose == TokenPurpose.refresh then some t.claims else none

/-- Modelled from the spec: `generateAccessToken({ userId })` issues a
fresh, well-signed, unexpired access token carrying the identifier. -/
def generateAccessToken (userId : Int) : Token :=
  { claims := { email := none, userId := some userId },
    purpose := TokenPurpose.access, sigValid := true, expired := false }

/-- Modelled from the spec: `generateRefreshToken({ userId })` issues a
fresh, well-signed, unexpired refresh token carrying the identifier. -/
def generateRefreshToken (userId : Int) : Token :=
  { claims := { email := none, userId := some userId },
    purpose := TokenPurpose.refresh, sigValid := true, expired := false }

/-- Response body of the two authentication endpoints. -/
structure AuthResponse where
  message : String
  accessToken : Token
  refreshToken : Token
deriving Repr, DecidableEq

/-! ## Authentication controller (`authenticate`, `refresh`) -/

/-- The `authenticate` controller.  `tokenData?.['email']` is the optional
chaining of the decode result with the email claim; `if (!userEmail)`
is JS truthiness, so both an absent claim and the empty string fail. -/
def authenticate (s : Store) (loginToken : Token) : Except AppError AuthResponse :=
  let tokenData := readToken loginToken
  match tokenData.bind (fun c => c.email) with
  | none => Except.error (AppError.invalidToken "Token inválido.")
  | some userEmail =>
    if userEmail = "" then Except.error (AppError.invalidToken "Token inválido.")
    else
      match findUniqueByEmail s userEmail with
      | none => Except.error (AppError.unauthorized "El usuario no existe.")
      | some user =>
        Except.ok { message := "Inicio de sesión exitoso.",
                    accessToken := generateAccessToken user.id,
                    refreshToken := generateRefreshToken user.id }

/-- The `refresh` controller.  `verifyRefreshToken` throws `InvalidToken`
on a bad token; `if (!userId)` is JS truthiness, so both an absent
identifier claim and the claim `0` fail. -/
def refresh (s : Store) (refreshToken : Token) : Except AppError AuthResponse :=
  match verifyRefreshToken refreshToken with
  | none => Except.error (AppError.invalidToken "Token de actualización inválido.")
  | some claims =>
    match claims.userId with
    | none => Except.error (AppError.invalidToken "Token de actualización inválido.")
    | some userId =>
      if userId = 0 then Except.error (AppError.invalidToken "Token de actualización inválido.")
      else
        match findUniqueById s (JsNum.int userId) with
        | none => Except.error (AppError.invalidToken "Usuario no encontrado.")
        | some user =>
          Except.ok { message := "Validación de sesión exitosa.",
                      accessToken := generateAccessToken user.id,
                      refreshToken := generateRefreshToken user.id }

/-! ## User-management controller (`users.ts`) -/

/-- Response shape produced by `mapToUserResponse`: the stored record with
the password omitted and a derived `fullName` added. -/
structure UserResponse where
  id : Int
  email : String
  firstName : String
  lastName : String
  roleId : Int
  role : Role
  fullName : String
deriving Repr, DecidableEq

/-- The `mapToUserResponse` helper: spread of the record minus `password`, plus
`fullName` interpolated as first name, a space, and last name. -/
def mapToUserResponse (user : UserWithRole) : UserResponse :=
  { id := user.id, email := user.email, firstName := user.firstName,
    lastName := user.lastName, roleId := user.roleId, role := user.role,
    fullName := user.firstName ++ " " ++ user.lastName }

/-- Modelled from the spec: the body accepted by `UserCreateRequestSchema`
(the schema source is not in scope) — user fields plus `roleId`. -/
structure UserCreateData where
  email : String
  firstName : String
  lastName : String
  password : String
  roleId : Int
deriving Repr, DecidableEq

/-- Modelled from the spec: the body accepted by `UserUpdateRequestSchema`
(the schema source is not in scope) — updatable user fields plus
`roleId`. -/
structure UserUpdateData where
  email : String
  firstName : String
  lastName : String
  roleId : Int
deriving Repr, DecidableEq

/-- The `validateUser` check: the target identifier must resolve to an existing
user, else `EntityNotFoundError("Usuario", { id })`. -/
def validateUser (s : Store) (userId : JsNum) : Except AppError Unit :=
  match findUniqueById s userId with
  | none => Except.error (AppError.entityNotFound "Usuario")
  | some _ => Except.ok ()

/-- The `validateExistingEmail(email, userId?)` check: fails with `ValidationError`
when the email is taken, except by the user identified by `userId`.  The
guard `if (userId && user.id === userId)` uses JS truthiness on `userId`
and strict equality. -/
def validateExistingEmail (s : Store) (email : String) (userId : Option JsNum) :
    Except AppError Unit :=
  match findUniqueByEmail s email with
  | none => Except.ok ()
  | some user =>
    match userId with
    | some uid =>
      if jsTruthy uid && jsEq (JsNum.int user.id) uid then Except.ok ()
      else Except.error (AppError.validationError "El correo electrónico ya está en uso.")
    | none => Except.error (AppError.validationError "El correo electrónico ya está en uso.")

/-- The store-assigned autoincrement identifier for a freshly created user
(the database starts at 1 and never reuses a live identifier). -/
def nextUserId (s : Store) : Int :=
  (s.users.foldl (fun m u => max m u.id) 0) + 1

/-- The `getUsers` controller: list all users joined with their roles, mapped through
`mapToUserResponse`.  A dangling role reference would surface as a store
error, modelled as `internalError`. -/
def getUsers (s : Store) : Except AppError (List UserResponse) :=
  match s.users.mapM (fun u => withRole s u) with
  | none => Except.error AppError.internalError
  | some users => Except.ok (users.map mapToUserResponse)

/-- The `getUserById` controller: parse the route parameter with `Number`, validate
existence, then fetch and map.  The non-null assertion `user!` on the
second fetch is modelled as `internalError` when it would crash. -/
def getUserById (s : Store) (userIdParam : String) : Except AppError UserResponse :=
  match validateUser s (jsNumber userIdParam) with
  | Except.error e => Except.error e
  | Except.ok _ =>
    match findUniqueById s (jsNumber userIdParam) with
    | none => Except.error AppError.internalError
    | some user =>
      match withRole s user with
      | none => Except.error AppError.internalError
      | some userWithRole => Except.ok (mapToUserResponse userWithRole)

/-- The `createUser` controller: check email uniqueness, then create the record connected
to its role (a missing role makes the `connect` fail, modelled as
`internalError`).  Returns the mapped response and the updated store. -/
def createUser (s : Store) (data : UserCreateData) :
    Except AppError (UserResponse × Store) :=
  match validateExistingEmail s data.email none with
  | Except.error e => Except.error e
  | Except.ok _ =>
    match s.roles.find? (fun r => r.id == data.roleId) with
    | none => Except.error AppError.internalError
    | some role =>
      let user : User := { id := nextUserId s, email := data.email,
                           firstName := data.firstName, lastName := data.lastName,
                           password := data.password, roleId := data.roleId }
      Except.ok (mapToUserResponse { toUser := user, role := role },
                 { s with users := s.users ++ [user] })

/-- The record produced by the `db.user.update` data spread: the stored
record with the request's updatable fields replaced. -/
def applyUpdate (user : User) (data : UserUpdateData) : User :=
  { user with
    email := data.email,
    firstName := data.firstName,
    lastName := data.lastName,
    roleId := data.roleId }

/-- The `updateUser` controller: validate existence and email uniqueness (excluding the
target's own identifier), then update the record.  Returns the mapped
response and the updated store. -/
def updateUser (s : Store) (userIdParam : String) (data : UserUpdateData) :
    Except AppError (UserResponse × Store) :=
  match validateUser s (jsNumber userIdParam) with
  | Except.error e => Except.error e
  | Except.ok _ =>
    match validateExistingEmail s data.email (some (jsNumber userIdParam)) with
    | Except.error e => Except.error e
    | Except.ok _ =>
      match findUniqueById s (jsNumber userIdParam) with
      | none => Except.error AppError.internalError
      | some user =>
        match s.roles.find? (fun r => r.id == data.roleId) with
        | none => Except.error AppError.internalError
        | some role =>
          Except.ok (mapToUserResponse
                       { toUser := applyUpdate user data, role := role },
                     { s with users :=
                        s.users.map (fun v =>
                          if jsEq (jsNumber userIdParam) (JsNum.int v.id) then
                            applyUpdate user data
                          else v) })

/-- Whether a ticket references the given identifier as assignee or
supervisor (the `OR` filter of the `findMany` in `deleteUser`). -/
def ticketReferences (t : Ticket) (userId : JsNum) : Bool :=
  (match t.assigneeId with
   | some a => jsEq (JsNum.int a) userId
   | none => false) ||
  (match t.supervisorId with
   | some a => jsEq (JsNum.int a) userId
   | none => false)

/-- The `deleteUser` controller: reject deleting the caller's own account, validate
existence, reject when any ticket references the target, then delete.
Returns the success message and the updated store. -/
def deleteUser (s : Store) (currentUser : User) (userIdParam : String) :
    Except AppError (String × Store) :=
  let userId := jsNumber userIdParam
  if jsEq userId (JsNum.int currentUser.id) then
    Except.error (AppError.validationError "La cuenta actual no puede ser eliminada.")
  else
    match validateUser s userId with
    | Except.error e => Except.error e
    | Except.ok _ =>
      let tickets := s.tickets.filter (fun t => ticketReferences t userId)
      if !tickets.isEmpty then
        Except.error (AppError.validationError "El usuario tiene tickets asociados.")
      else
        Except.ok ("Usuario eliminado.",
                   { s with users := s.users.filter (fun u => !(jsEq userId (JsNum.int u.id))) })

/-- The `getCurrentUser` controller: map the caller resolved by the authorization
middleware. -/
def getCurrentUser (currentUser : UserWithRole) : UserResponse :=
  mapToUserResponse currentUser

/-! ## Concrete fixtures used to exhibit satisfiability of hypotheses -/

/-- A sample role. -/
def roleAdmin : Role := { id := 1, name := "admin" }

/-- A sample user. -/
def userAlice : User :=
  { id := 1, email := "alice@example.com", firstName := "Alice",
    lastName := "Smith", password := "secret1", roleId := 1 }

/-- A second sample user with a distinct email. -/
def userBob : User :=
  { id := 2, email := "bob@example.com", firstName := "Bob",
    lastName := "Jones", password := "secret2", roleId := 1 }

/-- A user whose identifier is the falsy number 0. -/
def userZero : User :=
  { id := 0, email := "zero@example.com", firstName := "Zed",
    lastName := "Null", password := "secret0", roleId := 1 }

/-- A ticket assigned to `userBob`. -/
def ticketForBob : Ticket := { id := 10, assigneeId := some 2, supervisorId := none }

/-- A sample store holding the two users and the ticket. -/
def storeMain : Store :=
  { users := [userAlice, userBob], roles := [roleAdmin], tickets := [ticketForBob] }

/-- A store holding a user with identifier 0. -/
def storeZero : Store :=
  { users := [userZero], roles := [roleAdmin], tickets := [] }

/-- A valid login token for Alice's email. -/
def loginTokenAlice : Token :=
  { claims := { email := some "alice@example.com", userId := none },
    purpose := TokenPurpose.login, sigValid := true, expired := false }

/-- A valid login token whose email matches no user of `storeMain`. -/
def loginTokenGhost : Token :=
  { claims := { email := some "ghost@example.com", userId := none },
    purpose := TokenPurpose.login, sigValid := true, expired := false }

/-- A valid login token carrying no email claim. -/
def loginTokenNoEmail : Token :=
  { claims := { email := none, userId := some 1 },
    purpose := TokenPurpose.login, sigValid := true, expired := false }

/-- A valid refresh token whose user identifier matches no user of
`storeMain`. -/
def refreshTokenGhost : Token :=
  { claims := { email := none, userId := some 99 },
    purpose := TokenPurpose.refresh, sigValid := true, expired := false }

/-- A valid refresh token whose user-identifier claim is the falsy 0. -/
def refreshTokenZero : Token :=
  { claims := { email := none, userId := some 0 },
    purpose := TokenPurpose.refresh, sigValid := true, expired := false }

/-! ## Helper lemmas -/

/-- Strict equality on `NaN` is false against every number. -/
theorem jsEq_nan_left (b : JsNum) : jsEq JsNum.nan b = false := rfl

/-- A `NaN` identifier matches no stored user. -/
theorem findUniqueById_nan (s : Store) : findUniqueById s JsNum.nan = none := by
  unfold findUniqueById
  exact List.find?_eq_none.mpr (fun u _ => by simp [jsEq])

/-- When emails are unique in the store, looking a member up by its own
email finds exactly that member. -/
theorem findUniqueByEmail_mem (s : Store) {u : User} (hu : u ∈ s.users)
    (hnd : (s.users.map User.email).Nodup) :
    findUniqueByEmail s u.email = some u := by
  cases h : findUniqueByEmail s u.email with
  | none =>
    exact absurd (by simp) (List.find?_eq_none.mp h u hu)
  | some v =>
    have hvmem : v ∈ s.users := List.mem_of_find?_eq_some h
    have hveq : v.email = u.email := by simpa using List.find?_some h
    rw [List.inj_on_of_nodup_map hnd hvmem hu hveq]

/-- When identifiers are unique in the store, looking a member up by its
own identifier finds exactly that member. -/
theorem findUniqueById_mem (s : Store) {u : User} (hu : u ∈ s.users)
    (hnd : (s.users.map User.id).Nodup) :
    findUniqueById s (JsNum.int u.id) = some u := by
  cases h : findUniqueById s (JsNum.int u.id) with
  | none =>
    exact absurd (by simp [jsEq]) (List.find?_eq_none.mp h u hu)
  | some v =>
    have hvmem : v ∈ s.users := List.mem_of_find?_eq_some h
    have hveq : u.id = v.id := by simpa [jsEq] using List.find?_some h
    rw [List.inj_on_of_nodup_map hnd hvmem hu hveq.symm]

/-! ## Claim theorems -/

/-- C9: for every refresh token that verifies and whose decoded
user-identifier claim is the number 0, `refresh` fails with `InvalidToken`
even when a user with identifier 0 exists in the store, because
`if (!userId)` is a truthiness test and 0 is falsy. -/
theorem refresh_zero_userId_fails_invalidToken (s : Store) (t : Token) (c : Claims)
    (u : User) (hv : verifyRefreshToken t = some c) (hc : c.userId = some 0)
    (hu : u ∈ s.users) (hid : u.id = 0) :
    refresh s t = Except.error (AppError.invalidToken "Token de actualización inválido.") := by
  unfold refresh
  rw [hv]
  simp [hc]

/-- Witness for C9 at the concrete store holding a user with identifier 0. -/
theorem refresh_zero_userId_fails_invalidToken_witness :
    refresh storeZero refreshTokenZero =
      Except.error (AppError.invalidToken "Token de actualización inválido.") :=
  refresh_zero_userId_fails_invalidToken storeZero refreshTokenZero
    refreshTokenZero.claims userZero rfl rfl (by simp [storeZero]) rfl

/-- C3: for every refresh token that verifies and carries a
user-identifier claim, if no user with that identifier exists in the store
then `refresh` fails with `InvalidToken` (never with `Unauthorized`). -/
theorem refresh_deleted_user_fails_invalidToken (s : Store) (t : Token) (c : Claims)
    (uid : Int) (hv : verifyRefreshToken t = some c) (hc : c.userId = some uid)
    (hnone : findUniqueById s (JsNum.int uid) = none) :
    ∃ m, refresh s t = Except.error (AppError.invalidToken m) := by
  unfold refresh
  rw [hv]
  by_cases h : uid = 0
  · exact ⟨"Token de actualización inválido.", by simp [hc, h]⟩
  · exact ⟨"Usuario no encontrado.", by simp [hc, h, hnone]⟩

/-- Witness for C3: a verifying refresh token for identifier 99, absent
from the store. -/
theorem refresh_deleted_user_fails_invalidToken_witness :
    ∃ m, refresh storeMain refreshTokenGhost = Except.error (AppError.invalidToken m) :=
  refresh_deleted_user_fails_invalidToken storeMain refreshTokenGhost
    refreshTokenGhost.claims 99 rfl rfl (by decide)

/-- C8: for every login token that decodes successfully, if the email
claim is present and non-empty but matches no stored user, `authenticate`
fails with `Unauthorized`; if the email claim is absent, it fails with
`InvalidToken`. -/
theorem authenticate_email_claim_cases (s : Store) (t : Token) (c : Claims) (e : String) :
    (readToken t = some c → c.email = some e → e ≠ "" → findUniqueByEmail s e = none →
      authenticate s t = Except.error (AppError.unauthorized "El usuario no existe.")) ∧
    (readToken t = some c → c.email = none →
      authenticate s t = Except.error (AppError.invalidToken "Token inválido.")) := by
  constructor
  · intro hr he hne hf
    unfold authenticate
    rw [hr]
    simp [he, hne, hf]
  · intro hr he
    unfold authenticate
    rw [hr]
    simp [he]

/-- Witness for C8: an unknown-email login token yields `Unauthorized` on
the concrete store. -/
theorem authenticate_email_claim_cases_witness :
    authenticate storeMain loginTokenGhost =
      Except.error (AppError.unauthorized "El usuario no existe.") :=
  (authenticate_email_claim_cases storeMain loginTokenGhost
    loginTokenGhost.claims "ghost@example.com").1 rfl rfl (by decide) (by decide)

/-- C10: for every `getById` request whose path parameter does not parse
as a number, the identifier becomes `NaN`, the lookup finds no user, and
`getUserById` fails with `EntityNotFoundError` (no crash, no user). -/
theorem getUserById_nan_param_not_found (s : Store) (p : String)
    (h : jsNumber p = JsNum.nan) :
    getUserById s p = Except.error (AppError.entityNotFound "Usuario") := by
  unfold getUserById validateUser
  rw [h]
  simp [findUniqueById_nan]

/-- Witness for C10: the non-numeric parameter "abc". -/
theorem getUserById_nan_param_not_found_witness :
    getUserById storeMain "abc" = Except.error (AppError.entityNotFound "Usuario") :=
  getUserById_nan_param_not_found storeMain "abc" (by decide)

/-- C6: for every delete request whose parsed target identifier equals the
authenticated caller's identifier, `deleteUser` fails with
`ValidationError` — for every store, since the guard runs before any store
access, so no record is touched and the caller's record survives. -/
theorem deleteUser_own_account_fails (s : Store) (cu : User) (p : String)
    (h : jsEq (jsNumber p) (JsNum.int cu.id) = true) :
    deleteUser s cu p =
      Except.error (AppError.validationError "La cuenta actual no puede ser eliminada.") := by
  unfold deleteUser
  simp [h]

/-- Witness for C6: Alice (identifier 1) deleting `/users/1`. -/
theorem deleteUser_own_account_fails_witness :
    deleteUser storeMain userAlice "1" =
      Except.error (AppError.validationError "La cuenta actual no puede ser eliminada.") :=
  deleteUser_own_account_fails storeMain userAlice "1" (by decide)

/-- C4: for every create request whose email is already held by some
existing user, `createUser` fails with `ValidationError`; no store is
produced, so no record is created. -/
theorem createUser_duplicate_email_fails (s : Store) (d : UserCreateData) (u : User)
    (hu : u ∈ s.users) (he : u.email = d.email) :
    createUser s d =
      Except.error (AppError.validationError "El correo electrónico ya está en uso.") := by
  have hsome : (findUniqueByEmail s d.email).isSome := by
    unfold findUniqueByEmail
    exact List.find?_isSome.mpr ⟨u, hu, by simp [he]⟩
  obtain ⟨v, hv⟩ := Option.isSome_iff_exists.mp hsome
  unfold createUser validateExistingEmail
  rw [hv]

/-- Witness for C4: creating a second user with Alice's email. -/
theorem createUser_duplicate_email_fails_witness :
    createUser storeMain
      { email := "alice@example.com", firstName := "Al", lastName := "Ice",
        password := "x", roleId := 1 } =
      Except.error (AppError.validationError "El correo electrónico ya está en uso.") :=
  createUser_duplicate_email_fails storeMain
    { email := "alice@example.com", firstName := "Al", lastName := "Ice",
      password := "x", roleId := 1 } userAlice (by simp [storeMain]) rfl

/-- C2: for every delete request targeting an existing user referenced by
some ticket as assignee or supervisor, `deleteUser` fails with
`ValidationError`; no store is produced, so the user record is not
deleted. -/
theorem deleteUser_referenced_user_fails (s : Store) (cu : User) (p : String)
    (u : User) (t : Ticket)
    (hu : findUniqueById s (jsNumber p) = some u)
    (ht : t ∈ s.tickets) (href : ticketReferences t (jsNumber p) = true) :
    ∃ m, deleteUser s cu p = Except.error (AppError.validationError m) := by
  unfold deleteUser validateUser
  by_cases hown : jsEq (jsNumber p) (JsNum.int cu.id) = true
  · exact ⟨"La cuenta actual no puede ser eliminada.", by simp [hown]⟩
  · refine ⟨"El usuario tiene tickets asociados.", ?_⟩
    have hne : (s.tickets.filter (fun tk => ticketReferences tk (jsNumber p))).isEmpty = false := by
      rcases hfe : (s.tickets.filter (fun tk => ticketReferences tk (jsNumber p))).isEmpty with _ | _
      · rfl
      · exfalso
        have hmem : t ∈ s.tickets.filter (fun tk => ticketReferences tk (jsNumber p)) :=
          List.mem_filter.mpr ⟨ht, href⟩
        rw [List.isEmpty_iff.mp hfe] at hmem
        exact absurd hmem (List.not_mem_nil t)
    simp [hown, hu, hne]

/-- Witness for C2: deleting Bob (identifier 2), who is the assignee of
the sample ticket, as Alice. -/
theorem deleteUser_referenced_user_fails_witness :
    ∃ m, deleteUser storeMain userAlice "2" = Except.error (AppError.validationError m) :=
  deleteUser_referenced_user_fails storeMain userAlice "2" userBob ticketForBob
    (by decide) (by simp [storeMain]) (by decide)

/-- C1: for every login token that decodes successfully and whose email
claim matches a stored user, `authenticate` succeeds and both issued
tokens carry that user's identifier as their user-identifier claim. -/
theorem authenticate_known_email_issues_matching_tokens (s : Store) (t : Token)
    (c : Claims) (e : String) (u : User) (hWF : s.WF)
    (hr : readToken t = some c) (he : c.email = some e)
    (hf : findUniqueByEmail s e = some u) :
    authenticate s t = Except.ok
      { message := "Inicio de sesión exitoso.",
        accessToken := generateAccessToken u.id,
        refreshToken := generateRefreshToken u.id } ∧
    (generateAccessToken u.id).claims.userId = some u.id ∧
    (generateRefreshToken u.id).claims.userId = some u.id := by
  have humem : u ∈ s.users := List.mem_of_find?_eq_some hf
  have hueq : u.email = e := by simpa using List.find?_some hf
  have hne : e ≠ "" := hueq ▸ (hWF.1 u humem).2
  refine ⟨?_, rfl, rfl⟩
  unfold authenticate
  rw [hr]
  simp [he, hne, hf]

/-- Witness for C1: Alice's login token on the concrete store. -/
theorem authenticate_known_email_issues_matching_tokens_witness :
    authenticate storeMain loginTokenAlice = Except.ok
      { message := "Inicio de sesión exitoso.",
        accessToken := generateAccessToken userAlice.id,
        refreshToken := generateRefreshToken userAlice.id } ∧
    (generateAccessToken userAlice.id).claims.userId = some userAlice.id ∧
    (generateRefreshToken userAlice.id).claims.userId = some userAlice.id :=
  authenticate_known_email_issues_matching_tokens storeMain loginTokenAlice
    loginTokenAlice.claims "alice@example.com" userAlice (by decide) rfl rfl (by decide)

/-- C5: in a well-formed store, updating user A with the email of a
different user B fails the uniqueness check with `ValidationError`, while
updating A with A's own email passes the uniqueness check. -/
theorem updateUser_email_uniqueness (s : Store) (A B : User) (d : UserUpdateData)
    (p : String) (hWF : s.WF) (hA : A ∈ s.users) (hB : B ∈ s.users)
    (hp : jsNumber p = JsNum.int A.id) :
    (A ≠ B → d.email = B.email →
      updateUser s p d =
        Except.error (AppError.validationError "El correo electrónico ya está en uso.")) ∧
    (d.email = A.email →
      validateExistingEmail s d.email (some (jsNumber p)) = Except.ok ()) := by
  obtain ⟨hvals, hidnd, hemnd⟩ := hWF
  have hApos : A.id ≠ 0 := (hvals A hA).1.ne'
  have hfindA : findUniqueById s (JsNum.int A.id) = some A := findUniqueById_mem s hA hidnd
  constructor
  · intro hne hde
    have hfB : findUniqueByEmail s d.email = some B := by
      rw [hde]
      exact findUniqueByEmail_mem s hB hemnd
    have hBA : (B.id == A.id) = false := by
      simp only [beq_eq_false_iff_ne, ne_eq]
      exact fun hid => hne (List.inj_on_of_nodup_map hidnd hA hB hid.symm)
    unfold updateUser validateUser validateExistingEmail
    rw [hp]
    simp [hfindA, hfB, jsTruthy, jsEq, hApos, hBA]
  · intro hde
    have hfA : findUniqueByEmail s d.email = some A := by
      rw [hde]
      exact findUniqueByEmail_mem s hA hemnd
    unfold validateExistingEmail
    rw [hp, hfA]
    simp [jsTruthy, jsEq, hApos]

/-- Witness for C5: in the concrete store, updating Alice with Bob's email
fails with `ValidationError`. -/
theorem updateUser_email_uniqueness_witness :
    updateUser storeMain "1"
      { email := "bob@example.com", firstName := "Alice", lastName := "Smith", roleId := 1 } =
      Except.error (AppError.validationError "El correo electrónico ya está en uso.") :=
  (updateUser_email_uniqueness storeMain userAlice userBob
      { email := "bob@example.com", firstName := "Alice", lastName := "Smith", roleId := 1 }
      "1" (by decide) (by simp [storeMain]) (by simp [storeMain]) (by decide)).1
    (by decide) rfl

/-- Every successful `getUserById` result is a `mapToUserResponse` image. -/
theorem getUserById_ok_shape {s : Store} {p : String} {r : UserResponse}
    (h : getUserById s p = Except.ok r) :
    ∃ ur, r = mapToUserResponse ur := by
  unfold getUserById at h
  split at h
  · exact absurd h (by simp)
  · split at h
    · exact absurd h (by simp)
    · split at h
      · exact absurd h (by simp)
      · exact ⟨_, (by injection h with h; exact h.symm)⟩

/-- Every successful `getUsers` element is a `mapToUserResponse` image. -/
theorem getUsers_ok_shape {s : Store} {rs : List UserResponse}
    (h : getUsers s = Except.ok rs) :
    ∀ r ∈ rs, ∃ ur, r = mapToUserResponse ur := by
  unfold getUsers at h
  split at h
  · exact absurd h (by simp)
  · intro r hr
    injection h with h
    rw [← h] at hr
    obtain ⟨ur, _, hru⟩ := List.mem_map.mp hr
    exact ⟨ur, hru.symm⟩

/-- Every successful `createUser` response is a `mapToUserResponse`
image. -/
theorem createUser_ok_shape {s : Store} {d : UserCreateData} {out : UserResponse × Store}
    (h : createUser s d = Except.ok out) :
    ∃ ur, out.1 = mapToUserResponse ur := by
  unfold createUser at h
  split at h
  · exact absurd h (by simp)
  · split at h
    · exact absurd h (by simp)
    · exact ⟨_, (by injection h with h; rw [← h])⟩

/-- Every successful `updateUser` response is a `mapToUserResponse`
image. -/
theorem updateUser_ok_shape {s : Store} {p : String} {d : UserUpdateData}
    {out : UserResponse × Store} (h : updateUser s p d = Except.ok out) :
    ∃ ur, out.1 = mapToUserResponse ur := by
  unfold updateUser at h
  split at h
  · exact absurd h (by simp)
  · split at h
    · exact absurd h (by simp)
    · split at h
      · exact absurd h (by simp)
      · split at h
        · exact absurd h (by simp)
        · exact ⟨_, (by injection h with h; rw [← h])⟩

/-- C7: every user object returned by the user-management operations is
produced by `mapToUserResponse`: it carries no password (the response is
invariant under the stored password) and its `fullName` is the first
name, a single space, and the last name. -/
theorem user_responses_hide_password_and_derive_fullName :
    (∀ u : UserWithRole, (mapToUserResponse u).fullName = u.firstName ++ " " ++ u.lastName) ∧
    (∀ (u : UserWithRole) (pw : String),
        mapToUserResponse { u with password := pw } = mapToUserResponse u) ∧
    (∀ (s : Store) (rs : List UserResponse), getUsers s = Except.ok rs →
        ∀ r ∈ rs, r.fullName = r.firstName ++ " " ++ r.lastName) ∧
    (∀ (s : Store) (p : String) (r : UserResponse), getUserById s p = Except.ok r →
        r.fullName = r.firstName ++ " " ++ r.lastName) ∧
    (∀ (s : Store) (d : UserCreateData) (out : UserResponse × Store),
        createUser s d = Except.ok out →
        out.1.fullName = out.1.firstName ++ " " ++ out.1.lastName) ∧
    (∀ (s : Store) (p : String) (d : UserUpdateData) (out : UserResponse × Store),
        updateUser s p d = Except.ok out →
        out.1.fullName = out.1.firstName ++ " " ++ out.1.lastName) ∧
    (∀ cu : UserWithRole, (getCurrentUser cu).fullName =
        (getCurrentUser cu).firstName ++ " " ++ (getCurrentUser cu).lastName) := by
  refine ⟨fun u => rfl, fun u pw => rfl, ?_, ?_, ?_, ?_, fun cu => rfl⟩
  · intro s rs h r hr
    obtain ⟨ur, rfl⟩ := getUsers_ok_shape h r hr
    rfl
  · intro s p r h
    obtain ⟨ur, rfl⟩ := getUserById_ok_shape h
    rfl
  · intro s d out h
    obtain ⟨ur, hout⟩ := createUser_ok_shape h
    rw [hout]
    rfl
  · intro s p d out h
    obtain ⟨ur, hout⟩ := updateUser_ok_shape h
    rw [hout]
    rfl

/-- Witness for C7: `getUserById` on the concrete store returns Alice's
response, whose `fullName` is derived from her first and last names. -/
theorem user_responses_hide_password_and_derive_fullName_witness :
    (mapToUserResponse { toUser := userAlice, role := roleAdmin }).fullName =
      (mapToUserResponse { toUser := userAlice, role := roleAdmin }).firstName ++ " " ++
      (mapToUserResponse { toUser := userAlice, role := roleAdmin }).lastName :=
  user_responses_hide_password_and_derive_fullName.2.2.2.1 storeMain "1"
    (mapToUserResponse { toUser := userAlice, role := roleAdmin }) rfl

end IngWeb
